import Mathlib

set_option linter.unusedVariables false

/-!
Verification development for the vegap-sdk client library (src/src/index.ts,
src/src/types.ts).  The SDK is a thin request dispatcher: each public call
(`proxy`, `transform`, `pipeline`) builds one outbound HTTP request (method,
URL, headers, body) from a loosely-typed options bag, sends it, and maps the
response or error back to the caller.

The embedding below models the JavaScript values the dispatcher inspects
(`JsValue`), the client class (`Vegap`), and each method as a pure function
from the client state and arguments to the fully-built outbound request or a
configuration error.  Network I/O itself is outside the model: a method that
returns `Except.error` before its request record is constructed corresponds to
the source throwing before `fetch` is invoked, and response processing is
modelled by separate functions over an `HttpResponse` record.  Option-bag
fields are modelled at their declared TypeScript types (e.g. `path : string`,
`headers : Record<string, string>`).
-/

namespace VegapSDK

/-- Model of a JavaScript runtime value as inspected by the SDK:
strings, numbers (modelled as integers; the SDK never does arithmetic),
booleans, objects, arrays, `null` and `undefined`. -/
inductive JsValue where
  | jstr : String → JsValue
  | jnum : Int → JsValue
  | jbool : Bool → JsValue
  | jobj : List (String × JsValue) → JsValue
  | jarr : List JsValue → JsValue
  | jnull : JsValue
  | jundefined : JsValue

/-- A JavaScript object, as an association list of properties (keys are
unique in any object produced by a JavaScript program). -/
abbrev JsObj := List (String × JsValue)

/-- JavaScript truthiness: `""`, `0`, `false`, `null` and `undefined` are
falsy; every object and array is truthy. -/
def truthy : JsValue → Bool
  | .jstr s => s ≠ ""
  | .jnum n => n ≠ 0
  | .jbool b => b
  | .jobj _ => true
  | .jarr _ => true
  | .jnull => false
  | .jundefined => false

/-- Property lookup on an object. -/
def jsLookup : JsObj → String → Option JsValue
  | [], _ => none
  | (k, v) :: rest, key => if k = key then some v else jsLookup rest key

/-- Property access `o.k`: `undefined` when the property is absent. -/
def jsGet (o : JsObj) (k : String) : JsValue :=
  (jsLookup o k).getD .jundefined

/-- The JavaScript `'k' in o` test: true when the property exists, even when
its value is `undefined`. -/
def jsHas (o : JsObj) (k : String) : Bool :=
  (jsLookup o k).isSome

/-- Destructuring with a default (`const { k = d } = o`): the default applies
exactly when the property value is `undefined`. -/
def jsGetD (o : JsObj) (k : String) (d : JsValue) : JsValue :=
  match jsGet o k with
  | .jundefined => d
  | v => v

/-- View a value as an object for property access.  JavaScript boxes
primitives, so property access on a string, number, boolean or array yields
`undefined` for a missing property; property access on `null` or `undefined`
instead throws a TypeError, which the response-error model (`errorOutcome`)
handles before calling this function — the remaining call sites receive
values of the declared object types. -/
def asObj : JsValue → JsObj
  | .jobj l => l
  | _ => []

mutual
/-- The JavaScript `String(value)` conversion, on the value shapes the SDK
manipulates: arrays comma-join their elements (`Array.prototype.join`), with
`null`/`undefined` elements rendered as the empty string. -/
def jsString : JsValue → String
  | .jstr s => s
  | .jnum n => toString n
  | .jbool b => if b then "true" else "false"
  | .jnull => "null"
  | .jundefined => "undefined"
  | .jobj _ => "[object Object]"
  | .jarr l => String.intercalate "," (jsStringItems l)

/-- Rendered elements of an array under `String(...)`: `null` and `undefined`
become empty strings, everything else recurses. -/
def jsStringItems : List JsValue → List String
  | [] => []
  | v :: rest =>
    match v with
    | .jnull => "" :: jsStringItems rest
    | .jundefined => "" :: jsStringItems rest
    | w => jsString w :: jsStringItems rest
end

/-- Escape one character for a JSON string literal. -/
def jsonEscapeChar (c : Char) : String :=
  if c = '"' then "\\\""
  else if c = '\\' then "\\\\"
  else if c = '\n' then "\\n"
  else if c = '\r' then "\\r"
  else if c = '\t' then "\\t"
  else String.singleton c

/-- Render a JSON string literal. -/
def jsonQuote (s : String) : String :=
  "\"" ++ String.join (s.data.map jsonEscapeChar) ++ "\""

mutual
/-- Model of `JSON.stringify` on the values the SDK serializes.  A top-level
`undefined` never reaches this function (every call site guards on
truthiness); object properties whose value is `undefined` are skipped, and
`undefined` array elements render as `null`, as in JavaScript. -/
def jsonStringify : JsValue → String
  | .jstr s => jsonQuote s
  | .jnum n => toString n
  | .jbool b => if b then "true" else "false"
  | .jnull => "null"
  | .jundefined => "null"
  | .jobj l => "\x7b" ++ String.intercalate "," (jsonFields l) ++ "\x7d"
  | .jarr l => "[" ++ String.intercalate "," (jsonItems l) ++ "]"

/-- Rendered `key:value` fragments of an object, skipping `undefined`. -/
def jsonFields : List (String × JsValue) → List String
  | [] => []
  | (k, v) :: rest =>
    match v with
    | .jundefined => jsonFields rest
    | w => (jsonQuote k ++ ":" ++ jsonStringify w) :: jsonFields rest

/-- Rendered elements of an array, with `undefined` rendered as `null`. -/
def jsonItems : List JsValue → List String
  | [] => []
  | v :: rest =>
    match v with
    | .jundefined => "null" :: jsonItems rest
    | w => jsonStringify w :: jsonItems rest
end

/-- ASCII lowering of one character (the SDK's slugs are ASCII; JavaScript's
`toLowerCase` agrees with this on ASCII). -/
def lowerChar (c : Char) : Char :=
  if 'A' ≤ c ∧ c ≤ 'Z' then Char.ofNat (c.toNat + 32) else c

/-- Model of `String.prototype.toLowerCase`. -/
def toLowerCase (s : String) : String :=
  ⟨s.data.map lowerChar⟩

/-- Whether a character list starts with a pattern. -/
def charListStartsWith : List Char → List Char → Bool
  | _, [] => true
  | [], _ :: _ => false
  | c :: cs, p :: ps => c = p && charListStartsWith cs ps

/-- Whether a character list contains a pattern as a contiguous sublist. -/
def charListContains : List Char → List Char → Bool
  | [], pat => pat.isEmpty
  | c :: cs, pat => charListStartsWith (c :: cs) pat || charListContains cs pat

/-- Hexadecimal digit (uppercase, as produced by `URLSearchParams`). -/
def hexDigit (n : Nat) : Char :=
  if n < 10 then Char.ofNat (48 + n) else Char.ofNat (55 + n)

/-- UTF-8 encoding of one character, as a list of byte values. -/
def utf8Bytes (c : Char) : List Nat :=
  let n := c.toNat
  if n < 128 then [n]
  else if n < 2048 then [192 + n / 64, 128 + n % 64]
  else if n < 65536 then [224 + n / 4096, 128 + (n / 64) % 64, 128 + n % 64]
  else [240 + n / 262144, 128 + (n / 4096) % 64, 128 + (n / 64) % 64, 128 + n % 64]

/-- Percent-encode one byte value. -/
def percentByte (b : Nat) : String :=
  "%" ++ String.singleton (hexDigit (b / 16)) ++ String.singleton (hexDigit (b % 16))

/-- Characters `URLSearchParams` leaves unescaped
(`application/x-www-form-urlencoded` serialization). -/
def urlSafeChar (c : Char) : Bool :=
  c.isAlphanum || c = '-' || c = '_' || c = '.' || c = '*'

/-- The `application/x-www-form-urlencoded` escaping applied by
`URLSearchParams.toString()`: safe characters kept, space as `+`, everything
else percent-encoded per UTF-8 byte. -/
def encodeComponent (s : String) : String :=
  String.join (s.data.map (fun c =>
    if urlSafeChar c then String.singleton c
    else if c = ' ' then "+"
    else String.join ((utf8Bytes c).map percentByte)))

/-- Query entries appended by the source's `Object.entries(query).forEach`
loop: entries whose value is `undefined` or `null` are skipped, the rest are
stringified with `String(value)`. -/
def queryPairs (q : JsObj) : List (String × String) :=
  q.filterMap (fun kv =>
    match kv.2 with
    | .jundefined => none
    | .jnull => none
    | v => some (kv.1, jsString v))

/-- Model of `URLSearchParams.toString()` over the appended pairs. -/
def buildQueryString (pairs : List (String × String)) : String :=
  String.intercalate "&" (pairs.map (fun kv => encodeComponent kv.1 ++ "=" ++ encodeComponent kv.2))

/-- Assignment of a property on an object (`o[k] = v`): replaces the value at
an existing key in place, otherwise appends the property. -/
def objSet : List (String × String) → String → String → List (String × String)
  | [], k, v => [(k, v)]
  | (k', v') :: rest, k, v =>
    if k' = k then (k, v) :: rest else (k', v') :: objSet rest k v

/-- Object spread `{...a, ...b}` on string-valued records: the properties of
`b` override those of `a`. -/
def objSpread (a b : List (String × String)) : List (String × String) :=
  b.foldl (fun acc kv => objSet acc kv.1 kv.2) a

/-- Lookup of a header/property in a string-valued record. -/
def hGet : List (String × String) → String → Option String
  | [], _ => none
  | (k, v) :: rest, key => if k = key then some v else hGet rest key

/-- Extract a `Record<string, string>` (the declared type of the `headers`
option) from a value. -/
def headerList (v : JsValue) : List (String × String) :=
  (asObj v).filterMap (fun kv =>
    match kv.2 with
    | .jstr s => some (kv.1, s)
    | _ => none)

/-- Configuration passed to the `Vegap` constructor (`VegapConfig` in
types.ts): `baseUrl` and `companyId` are optional. -/
structure VegapConfig where
  apiKey : String
  baseUrl : Option String
  companyId : Option String

/-- The client state: the three private fields of the `Vegap` class. -/
structure Vegap where
  apiKey : String
  baseUrl : String
  companyId : Option String

/-- The `Vegap` constructor: rejects a missing/empty API key, defaults the
base URL to `https://api.vegap.de` when absent or falsy. -/
def Vegap.create (config : VegapConfig) : Except String Vegap :=
  if config.apiKey = "" then .error "API key is required"
  else .ok
    { apiKey := config.apiKey
      baseUrl :=
        match config.baseUrl with
        | some b => if b = "" then "https://api.vegap.de" else b
        | none => "https://api.vegap.de"
      companyId := config.companyId }

/-- The `setCompanyId` method. -/
def Vegap.setCompanyId (v : Vegap) (companyId : String) : Vegap :=
  { v with companyId := some companyId }

/-- Whether the private `companyId` field is truthy. -/
def Vegap.hasCompanyId (v : Vegap) : Bool :=
  match v.companyId with
  | some c => c ≠ ""
  | none => false

/-- Error message thrown by `getCompanyId` when no company ID is configured. -/
def companyIdRequiredMsg : String :=
  "Company ID is required. Please provide it in the config or use setCompanyId() method."

/-- The private `getCompanyId` method: returns the configured company ID if
truthy, otherwise throws (no implicit lookup is performed). -/
def Vegap.getCompanyId (v : Vegap) : Except String String :=
  match v.companyId with
  | some c => if c = "" then .error companyIdRequiredMsg else .ok c
  | none => .error companyIdRequiredMsg

/-- Payloads a request can carry: serialized text or multipart form data. -/
inductive FileValue where
  | fileBlob : String → FileValue
  | buffer : String → FileValue
  | bytes : String → FileValue
  | unsupported : FileValue

/-- Body of an outbound request: text (JSON or verbatim string) or a
`FormData` with the uploaded file. -/
inductive BodyValue where
  | text : String → BodyValue
  | form : List (String × FileValue) → BodyValue

/-- The fully-built outbound HTTP request handed to `fetch`. -/
structure OutboundRequest where
  method : String
  url : String
  headers : List (String × String)
  body : Option BodyValue

/-- The recognized option keys of `ProxyOptions`, tested by the source's
`'method' in options || 'body' in options || ...` condition. -/
def recognizedProxyKeys : List String :=
  ["method", "body", "query", "path", "headers", "mappingId"]

/-- Whether the options argument carries at least one recognized option key. -/
def hasRecognizedKey (o : JsObj) : Bool :=
  recognizedProxyKeys.any (fun k => jsHas o k)

/-- Normalization of the second `proxy` argument when the first is a slug:
a missing argument becomes `{method: 'GET'}`; an argument with a recognized
key is already a `ProxyOptions`; otherwise the whole object is treated as
query parameters for a GET request.  The decision is made once over the whole
argument. -/
def normalizeSlugOptions (options : Option JsObj) : JsObj :=
  match options with
  | none => [("method", .jstr "GET")]
  | some o =>
    if hasRecognizedKey o then o
    else [("query", .jobj o), ("method", .jstr "GET")]

/-- Resolution of `proxy`'s two call forms into `(customSlug?,
normalizedOptions)`: a string first argument is a custom slug; an object
first argument must carry a truthy `mappingId`. -/
def proxyNormalize (identifier : Sum String JsObj) (options : Option JsObj) :
    Except String (Option String × JsObj) :=
  match identifier with
  | .inl slug => .ok (some slug, normalizeSlugOptions options)
  | .inr o =>
    if truthy (jsGet o "mappingId") then .ok (none, o)
    else .error "If first parameter is an options object, it must contain mappingId"

/-- The source's `path.replace(/^\//, '')`: strip one leading slash. -/
def stripLeadingSlash (p : String) : String :=
  match p.data with
  | '/' :: rest => ⟨rest⟩
  | _ => p

/-- URL fragment contributed by a truthy `path` option: one `/` separator
followed by the fragment with any single leading slash stripped. -/
def proxyPathSuffix (no : JsObj) : String :=
  let p := jsGet no "path"
  if truthy p then "/" ++ stripLeadingSlash (jsString p) else ""

/-- URL fragment contributed by the `query` option (empty when the query
serializes to nothing). -/
def querySuffix (no : JsObj) : String :=
  let qs := buildQueryString (queryPairs (asObj (jsGetD no "query" (.jobj []))))
  if qs = "" then "" else "?" ++ qs

/-- Route selection of `proxy`: a truthy `mappingId` selects
`{base}/api/proxy/{id}` without consulting the company ID; otherwise a
non-empty slug selects `{base}/api/proxy/custom/{companyId}/{slug
lowercased}` after resolving the company ID; otherwise the call is a
configuration error. -/
def proxyUrlBase (v : Vegap) (customSlug : Option String) (no : JsObj) :
    Except String String :=
  let mid := jsGet no "mappingId"
  if truthy mid then .ok (v.baseUrl ++ "/api/proxy/" ++ jsString mid)
  else if customSlug.getD "" ≠ "" then
    (v.getCompanyId).bind (fun c =>
      .ok (v.baseUrl ++ "/api/proxy/custom/" ++ c ++ "/" ++ toLowerCase (customSlug.getD "")))
  else .error "Either customSlug (string) or mappingId (in options) must be provided"

/-- Serialization of the `body` option: a string body is sent verbatim,
anything else through `JSON.stringify`. -/
def serializeBody : JsValue → String
  | .jstr s => s
  | b => jsonStringify b

/-- Body attachment rule of `proxy`: a body is carried exactly when the
`body` option is truthy and the resolved method is POST, PUT or PATCH. -/
def proxyBody (no : JsObj) : Option BodyValue :=
  if truthy (jsGet no "body")
      && ["POST", "PUT", "PATCH"].contains (jsString (jsGetD no "method" (.jstr "GET"))) then
    some (.text (serializeBody (jsGet no "body")))
  else none

/-- The `proxy` method up to the `fetch` call: returns the outbound request
it would dispatch, or the configuration error thrown before any network
request. -/
def Vegap.proxyCore (v : Vegap) (identifier : Sum String JsObj)
    (options : Option JsObj) : Except String OutboundRequest :=
  (proxyNormalize identifier options).bind (fun pr =>
    (proxyUrlBase v pr.1 pr.2).bind (fun ub =>
      .ok
        { method := jsString (jsGetD pr.2 "method" (.jstr "GET"))
          url := ub ++ proxyPathSuffix pr.2 ++ querySuffix pr.2
          headers := objSpread [("X-API-Key", v.apiKey), ("Content-Type", "application/json")]
            (headerList (jsGetD pr.2 "headers" (.jobj [])))
          body := proxyBody pr.2 }))

/-- The `proxy` method as a state transformer: the source assigns to no
private field, so the client state it finishes with is the one it started
with. -/
def Vegap.proxy (v : Vegap) (identifier : Sum String JsObj)
    (options : Option JsObj) : Vegap × Except String OutboundRequest :=
  (v, v.proxyCore identifier options)

/-- Arguments of the `transform` method (`TransformOptions` in types.ts);
`none` models a missing/undefined field. -/
structure TransformOptions where
  mappingId : Option String
  rawResponse : Option JsValue

/-- Falsiness of an optional value (a missing field is falsy). -/
def optFalsy : Option JsValue → Bool
  | none => true
  | some v => !truthy v

/-- The `transform` method up to the `fetch` call: both fields are validated
before any request is built; the request is a POST to `{base}/api/transform`
with fixed headers and the JSON body `{mapping_id, raw_response}`. -/
def Vegap.transformCore (v : Vegap) (o : TransformOptions) :
    Except String OutboundRequest :=
  if o.mappingId.getD "" = "" then .error "mappingId is required"
  else if optFalsy o.rawResponse then .error "rawResponse is required"
  else .ok
    { method := "POST"
      url := v.baseUrl ++ "/api/transform"
      headers := [("X-API-Key", v.apiKey), ("Content-Type", "application/json")]
      body := some (.text (jsonStringify (.jobj
        [("mapping_id", .jstr (o.mappingId.getD "")),
         ("raw_response", o.rawResponse.getD .jundefined)]))) }

/-- The `transform` method as a state transformer (no private field is
assigned). -/
def Vegap.transform (v : Vegap) (o : TransformOptions) :
    Vegap × Except String OutboundRequest :=
  (v, v.transformCore o)

/-- Arguments of the `pipeline` method (`PipelineOptions`); `none` models a
missing/undefined field. -/
structure PipelineOptions where
  file : Option FileValue
  data : Option JsValue
  headers : List (String × String)
  pipelineId : Option String

/-- The empty pipeline options object (`options || {}`). -/
def emptyPipelineOptions : PipelineOptions :=
  { file := none, data := none, headers := [], pipelineId := none }

/-- Resolution of `pipeline`'s two call forms into `(customSlug?,
normalizedOptions)`: a string first argument is a custom slug (a missing
second argument becomes `{}`); an object first argument must carry a truthy
`pipelineId`. -/
def pipelineNormalize (identifier : Sum String PipelineOptions)
    (options : Option PipelineOptions) :
    Except String (Option String × PipelineOptions) :=
  match identifier with
  | .inl slug => .ok (some slug, options.getD emptyPipelineOptions)
  | .inr o =>
    if o.pipelineId.getD "" = "" then
      .error "If first parameter is an options object, it must contain pipelineId, or use custom slug as first parameter"
    else .ok (none, o)

/-- Route selection of `pipeline`: a truthy `pipelineId` selects
`{base}/api/pipelines/execute/{id}`; otherwise a non-empty slug selects
`{base}/api/pipelines/custom/{companyId}/{slug lowercased}` after resolving
the company ID. -/
def pipelineUrl (v : Vegap) (customSlug : Option String) (no : PipelineOptions) :
    Except String String :=
  if no.pipelineId.getD "" ≠ "" then
    .ok (v.baseUrl ++ "/api/pipelines/execute/" ++ no.pipelineId.getD "")
  else if customSlug.getD "" ≠ "" then
    (v.getCompanyId).bind (fun c =>
      .ok (v.baseUrl ++ "/api/pipelines/custom/" ++ c ++ "/" ++ toLowerCase (customSlug.getD "")))
  else .error "Either customSlug (string) or pipelineId (in options) must be provided"

/-- The `pipeline` method up to the `fetch` call.  The payload validation
(`file` or `data` required) runs before the URL is built; a file payload is
sent as multipart form data with only the credential header by default (the
content type is deliberately left to the transport); a JSON data payload sets
`Content-Type: application/json` after spreading the caller's headers. -/
def Vegap.pipelineCore (v : Vegap) (identifier : Sum String PipelineOptions)
    (options : Option PipelineOptions) : Except String OutboundRequest :=
  (pipelineNormalize identifier options).bind (fun pr =>
    if pr.2.file.isNone && optFalsy pr.2.data then
      .error "Either file or data must be provided"
    else
      (pipelineUrl v pr.1 pr.2).bind (fun ub =>
        match pr.2.file with
        | some f =>
          match f with
          | .unsupported => .error "Unsupported file type. Use File, Blob, or Buffer."
          | _ =>
            .ok
              { method := "POST"
                url := ub
                headers := objSpread [("X-API-Key", v.apiKey)] pr.2.headers
                body := some (.form [("file", f)]) }
        | none =>
          .ok
            { method := "POST"
              url := ub
              headers := objSet (objSpread [("X-API-Key", v.apiKey)] pr.2.headers)
                "Content-Type" "application/json"
              body := some (.text (jsonStringify (.jobj [("data", pr.2.data.getD .jundefined)]))) }))

/-- The `pipeline` method as a state transformer (no private field is
assigned). -/
def Vegap.pipeline (v : Vegap) (identifier : Sum String PipelineOptions)
    (options : Option PipelineOptions) : Vegap × Except String OutboundRequest :=
  (v, v.pipelineCore identifier options)

/-- A received HTTP response as the SDK observes it: status line, the
`content-type` response header (`none` models a null header), the raw body
text, and the result of JSON-parsing the body (`none` models a parse
failure, i.e. a rejected `response.json()`). -/
structure HttpResponse where
  status : Nat
  statusText : String
  contentType : Option String
  bodyText : String
  bodyJson : Option JsValue

/-- The `response.ok` flag: status in the range 200–299. -/
def responseOk (r : HttpResponse) : Bool :=
  200 ≤ r.status && r.status ≤ 299

/-- Substring test (`String.prototype.includes`). -/
def containsSubstr (s pat : String) : Bool :=
  charListContains s.data pat.data

/-- A failure value surfaced to the caller on the response path: an `Error`
constructed with an explicit message string; the TypeError raised by reading
a property of a `null`/`undefined` response body, whose engine-defined
message does not mention the HTTP status; or a rejected `response.json()` on
a 2xx body. -/
inductive JsError where
  | errorObj : String → JsError
  | typeError : JsError
  | parseFailure : JsError
deriving DecidableEq

/-- The error-handling block shared by all three methods
(`const errorData = await response.json().catch(() => ({error: fallback}));
throw new Error(errorData.error || fallback)`): a body that fails to decode
is replaced by `{error: fallback}`, so the thrown message is the synthesized
`HTTP {status}: {statusText}`; a body decoding to literal `null` (or
`undefined`) makes the `errorData.error` access itself throw a TypeError; on
any other decoded body a truthy `error` property is stringified and thrown,
and a falsy or absent one falls back to the synthesized message. -/
def errorOutcome (r : HttpResponse) : JsError :=
  let fallback := "HTTP " ++ (toString r.status ++ (": " ++ r.statusText))
  match r.bodyJson with
  | none => .errorObj fallback
  | some .jnull => .typeError
  | some .jundefined => .typeError
  | some j =>
    let e := jsGet (asObj j) "error"
    if truthy e then .errorObj (jsString e) else .errorObj fallback

/-- Whether the response declares a CSV content type
(`contentType && contentType.includes('text/csv')`). -/
def declaresCsv (r : HttpResponse) : Bool :=
  match r.contentType with
  | some ct => ct ≠ "" && containsSubstr ct "text/csv"
  | none => false

/-- The success shape `pipeline` returns for a CSV response: the raw text
under `result`, with an empty job id and status `completed`. -/
def csvSuccessShape (t : String) : JsValue :=
  .jobj [("success", .jbool true), ("job_id", .jstr ""), ("result", .jstr t),
         ("status", .jstr "completed")]

/-- Response processing of `proxy`: non-2xx throws the extracted error
outcome; otherwise the JSON body is wrapped as `{data}`.  (An unparseable
success body makes `response.json()` itself reject, modelled by the last
branch.) -/
def proxyHandleResponse (r : HttpResponse) : Except JsError JsValue :=
  if responseOk r then
    match r.bodyJson with
    | some j => .ok (.jobj [("data", j)])
    | none => .error .parseFailure
  else .error (errorOutcome r)

/-- Response processing of `transform`: non-2xx throws the extracted error
outcome; otherwise the JSON body is returned directly. -/
def transformHandleResponse (r : HttpResponse) : Except JsError JsValue :=
  if responseOk r then
    match r.bodyJson with
    | some j => .ok j
    | none => .error .parseFailure
  else .error (errorOutcome r)

/-- Response processing of `pipeline`: non-2xx throws the extracted error
outcome; a 2xx response declaring `text/csv` is passed through verbatim under
the success shape; otherwise the JSON body is returned. -/
def pipelineHandleResponse (r : HttpResponse) : Except JsError JsValue :=
  if responseOk r then
    if declaresCsv r then .ok (csvSuccessShape r.bodyText)
    else
      match r.bodyJson with
      | some j => .ok j
      | none => .error .parseFailure
  else .error (errorOutcome r)

/-- A concrete configured client used by witnesses and counterexamples. -/
def vTest : Vegap :=
  { apiKey := "test-key", baseUrl := "https://api.vegap.de", companyId := some "co1" }

/-- A concrete client with no company ID configured. -/
def vNoCompany : Vegap :=
  { apiKey := "test-key", baseUrl := "https://api.vegap.de", companyId := none }

/-- A concrete non-2xx response whose body decodes to `{"error":"bad slug"}`. -/
def respBadSlug : HttpResponse :=
  { status := 400, statusText := "Bad Request", contentType := none,
    bodyText := "", bodyJson := some (.jobj [("error", .jstr "bad slug")]) }

/-- A concrete non-2xx response whose body does not decode as JSON. -/
def respNoJson : HttpResponse :=
  { status := 404, statusText := "Not Found", contentType := none,
    bodyText := "not json", bodyJson := none }

/-- A concrete non-2xx response whose body decodes to literal JSON `null`. -/
def respNullBody : HttpResponse :=
  { status := 404, statusText := "Not Found", contentType := none,
    bodyText := "null", bodyJson := some .jnull }

/-- A concrete 2xx response declaring a CSV content type. -/
def respCsv : HttpResponse :=
  { status := 200, statusText := "OK", contentType := some "text/csv; charset=utf-8",
    bodyText := "a,b\n1,2", bodyJson := none }

theorem hGet_objSet_self (o : List (String × String)) (k v : String) :
    hGet (objSet o k v) k = some v := by
  induction o with
  | nil => simp [objSet, hGet]
  | cons p rest ih =>
    obtain ⟨k', v'⟩ := p
    by_cases h : k' = k
    · simp [objSet, h, hGet]
    · simp [objSet, h, hGet, ih]

theorem hGet_objSet_other (o : List (String × String)) (k v k' : String)
    (h : k' ≠ k) : hGet (objSet o k v) k' = hGet o k' := by
  have h' : k ≠ k' := Ne.symm h
  induction o with
  | nil => simp [objSet, hGet, h']
  | cons p rest ih =>
    obtain ⟨k1, v1⟩ := p
    by_cases h1 : k1 = k
    · subst h1
      simp [objSet, hGet, h']
    · simp [objSet, h1, hGet, ih]

theorem hGet_eq_none_of_not_mem (o : List (String × String)) (k : String)
    (h : k ∉ o.map Prod.fst) : hGet o k = none := by
  induction o with
  | nil => rfl
  | cons p rest ih =>
    obtain ⟨k', v'⟩ := p
    simp only [List.map_cons, List.mem_cons, not_or] at h
    have : k' ≠ k := fun hh => h.1 hh.symm
    simp [hGet, this, ih h.2]

theorem hGet_objSpread (a b : List (String × String)) (k : String)
    (hb : (b.map Prod.fst).Nodup) :
    hGet (objSpread a b) k =
      match hGet b k with
      | some x => some x
      | none => hGet a k := by
  induction b generalizing a with
  | nil => simp [objSpread, hGet]
  | cons p rest ih =>
    obtain ⟨k1, v1⟩ := p
    simp only [List.map_cons, List.nodup_cons] at hb
    have h1 : objSpread a ((k1, v1) :: rest) = objSpread (objSet a k1 v1) rest := rfl
    rw [h1, ih _ hb.2]
    by_cases hk : k1 = k
    · subst hk
      have hrest : hGet rest k1 = none := hGet_eq_none_of_not_mem _ _ hb.1
      simp [hGet, hrest, hGet_objSet_self]
    · simp [hGet, hk, hGet_objSet_other a k1 v1 k (fun hh => hk hh.symm)]

theorem getCompanyId_error (v : Vegap) (h : v.hasCompanyId = false) :
    v.getCompanyId = .error companyIdRequiredMsg := by
  unfold Vegap.getCompanyId
  unfold Vegap.hasCompanyId at h
  cases hc : v.companyId with
  | none => rfl
  | some c =>
    rw [hc] at h
    simp only [decide_eq_false_iff_not, not_not] at h
    simp [h]

theorem getCompanyId_ok (v : Vegap) (c : String) (hc : v.companyId = some c)
    (hne : c ≠ "") : v.getCompanyId = .ok c := by
  unfold Vegap.getCompanyId
  rw [hc]
  simp [hne]

theorem proxyCore_shape (v : Vegap) (ident : Sum String JsObj) (opts : Option JsObj)
    (cs : Option String) (no : JsObj) (r : OutboundRequest)
    (hn : proxyNormalize ident opts = .ok (cs, no))
    (hr : v.proxyCore ident opts = .ok r) :
    ∃ ub, proxyUrlBase v cs no = .ok ub ∧
      r = { method := jsString (jsGetD no "method" (.jstr "GET"))
            url := ub ++ proxyPathSuffix no ++ querySuffix no
            headers := objSpread [("X-API-Key", v.apiKey), ("Content-Type", "application/json")]
              (headerList (jsGetD no "headers" (.jobj [])))
            body := proxyBody no } := by
  unfold Vegap.proxyCore at hr
  rw [hn] at hr
  simp only [Except.bind] at hr
  cases hu : proxyUrlBase v cs no with
  | error e => rw [hu] at hr; simp only [Except.bind] at hr; cases hr
  | ok ub =>
    rw [hu] at hr
    simp only [Except.bind] at hr
    injection hr with h
    exact ⟨ub, rfl, h.symm⟩

theorem pipelineCore_file_shape (v : Vegap) (ident : Sum String PipelineOptions)
    (opts : Option PipelineOptions) (cs : Option String) (no : PipelineOptions)
    (r : OutboundRequest) (f : FileValue)
    (hn : pipelineNormalize ident opts = .ok (cs, no))
    (hf : no.file = some f)
    (hr : v.pipelineCore ident opts = .ok r) :
    ∃ ub, pipelineUrl v cs no = .ok ub ∧
      r = { method := "POST", url := ub,
            headers := objSpread [("X-API-Key", v.apiKey)] no.headers,
            body := some (.form [("file", f)]) } := by
  unfold Vegap.pipelineCore at hr
  rw [hn] at hr
  simp only [Except.bind] at hr
  rw [hf] at hr
  simp only [Option.isNone_some, Bool.false_and, Bool.false_eq_true, if_false] at hr
  cases hu : pipelineUrl v cs no with
  | error e => rw [hu] at hr; simp only [Except.bind] at hr; cases hr
  | ok ub =>
    rw [hu] at hr
    simp only [Except.bind] at hr
    cases f with
    | unsupported => cases hr
    | fileBlob s => injection hr with h; exact ⟨ub, rfl, h.symm⟩
    | buffer s => injection hr with h; exact ⟨ub, rfl, h.symm⟩
    | bytes s => injection hr with h; exact ⟨ub, rfl, h.symm⟩

theorem pipelineCore_data_shape (v : Vegap) (ident : Sum String PipelineOptions)
    (opts : Option PipelineOptions) (cs : Option String) (no : PipelineOptions)
    (r : OutboundRequest)
    (hn : pipelineNormalize ident opts = .ok (cs, no))
    (hf : no.file = none)
    (hr : v.pipelineCore ident opts = .ok r) :
    ∃ ub, pipelineUrl v cs no = .ok ub ∧
      r = { method := "POST", url := ub,
            headers := objSet (objSpread [("X-API-Key", v.apiKey)] no.headers)
              "Content-Type" "application/json",
            body := some (.text (jsonStringify (.jobj [("data", no.data.getD .jundefined)]))) } := by
  unfold Vegap.pipelineCore at hr
  rw [hn] at hr
  simp only [Except.bind] at hr
  rw [hf] at hr
  by_cases hd : optFalsy no.data
  · simp only [Option.isNone_none, Bool.true_and, hd, if_true] at hr
    cases hr
  · rw [Bool.not_eq_true] at hd
    simp only [Option.isNone_none, Bool.true_and, hd, Bool.false_eq_true, if_false] at hr
    cases hu : pipelineUrl v cs no with
    | error e => rw [hu] at hr; simp only [Except.bind] at hr; cases hr
    | ok ub =>
      rw [hu] at hr
      simp only [Except.bind] at hr
      injection hr with h
      exact ⟨ub, rfl, h.symm⟩

/-- C9: After construction the client configuration is immutable except for
the tenant identifier: `setCompanyId` sets only `companyId` and leaves
`apiKey` and `baseUrl` unchanged, and `proxy`, `transform` and `pipeline`
leave the entire client state unchanged whether they succeed or fail. -/
theorem client_config_immutability :
    (∀ (v : Vegap) (c : String),
      (v.setCompanyId c).apiKey = v.apiKey ∧ (v.setCompanyId c).baseUrl = v.baseUrl ∧
      (v.setCompanyId c).companyId = some c)
  ∧ (∀ (v : Vegap) (ident : Sum String JsObj) (opts : Option JsObj),
      (v.proxy ident opts).fst = v)
  ∧ (∀ (v : Vegap) (o : TransformOptions), (v.transform o).fst = v)
  ∧ (∀ (v : Vegap) (ident : Sum String PipelineOptions) (opts : Option PipelineOptions),
      (v.pipeline ident opts).fst = v) :=
  ⟨fun _ _ => ⟨rfl, rfl, rfl⟩, fun _ _ _ => rfl, fun _ _ => rfl, fun _ _ _ => rfl⟩

/-- C1: For a proxy call on a slug with a non-empty options object, the
dispatcher decides once over the whole argument: if none of the recognized
keys (method, body, query, path, headers, mappingId) is present, the entire
object becomes the query of a GET request; if at least one recognized key is
present, the object is taken as the structured options verbatim. -/
theorem proxy_options_one_shot_normalization (o : JsObj) (ho : o ≠ []) :
    (hasRecognizedKey o = false →
      normalizeSlugOptions (some o) = [("query", JsValue.jobj o), ("method", JsValue.jstr "GET")]
      ∧ ∀ (v : Vegap) (s : String) (r : OutboundRequest),
          v.proxyCore (Sum.inl s) (some o) = .ok r → r.method = "GET")
  ∧ (hasRecognizedKey o = true → normalizeSlugOptions (some o) = o) := by
  constructor
  · intro h
    have hnorm : normalizeSlugOptions (some o) =
        [("query", JsValue.jobj o), ("method", JsValue.jstr "GET")] := by
      simp [normalizeSlugOptions, h]
    refine ⟨hnorm, ?_⟩
    intro v s r hr
    have hn : proxyNormalize (Sum.inl s) (some o) =
        .ok (some s, [("query", JsValue.jobj o), ("method", JsValue.jstr "GET")]) := by
      simp [proxyNormalize, hnorm]
    obtain ⟨ub, _, hr2⟩ := proxyCore_shape v _ _ _ _ r hn hr
    rw [hr2]
    rfl
  · intro h
    simp [normalizeSlugOptions, h]

/-- Witness for C1: `{id: 'cus_123'}` has no recognized key and is treated as
query parameters of a GET request; `{method: 'POST'}` has a recognized key
and is kept as structured options. -/
theorem proxy_options_one_shot_normalization_witness :
    (([("id", JsValue.jstr "cus_123")] : JsObj) ≠ []
      ∧ hasRecognizedKey [("id", JsValue.jstr "cus_123")] = false
      ∧ normalizeSlugOptions (some [("id", JsValue.jstr "cus_123")]) =
          [("query", JsValue.jobj [("id", JsValue.jstr "cus_123")]), ("method", JsValue.jstr "GET")]
      ∧ OutboundRequest.method
          { method := "GET",
            url := "https://api.vegap.de/api/proxy/custom/co1/myslug?id=cus_123",
            headers := [("X-API-Key", "test-key"), ("Content-Type", "application/json")],
            body := none } = "GET")
  ∧ (([("method", JsValue.jstr "POST")] : JsObj) ≠ []
      ∧ hasRecognizedKey [("method", JsValue.jstr "POST")] = true
      ∧ normalizeSlugOptions (some [("method", JsValue.jstr "POST")]) =
          [("method", JsValue.jstr "POST")]) :=
  ⟨⟨List.cons_ne_nil _ _, rfl,
    ((proxy_options_one_shot_normalization [("id", JsValue.jstr "cus_123")]
        (List.cons_ne_nil _ _)).1 rfl).1,
    ((proxy_options_one_shot_normalization [("id", JsValue.jstr "cus_123")]
        (List.cons_ne_nil _ _)).1 rfl).2 vTest "MySlug"
      { method := "GET",
        url := "https://api.vegap.de/api/proxy/custom/co1/myslug?id=cus_123",
        headers := [("X-API-Key", "test-key"), ("Content-Type", "application/json")],
        body := none } rfl⟩,
   ⟨List.cons_ne_nil _ _, rfl,
    (proxy_options_one_shot_normalization [("method", JsValue.jstr "POST")]
        (List.cons_ne_nil _ _)).2 rfl⟩⟩

/-- C2: A proxy call identified by a non-empty slug fails with the
configuration error before any request is built when no (truthy) company ID
is configured, and with a company ID `c` configured it builds the URL
`{base}/api/proxy/custom/{c}/{slug lowercased}` before the optional path
fragment and query string are appended. -/
theorem proxy_slug_tenant_requirement_and_url (v : Vegap) (s : String)
    (opts : Option JsObj) (hs : s ≠ "")
    (hmid : truthy (jsGet (normalizeSlugOptions opts) "mappingId") = false) :
    (v.hasCompanyId = false →
      v.proxyCore (Sum.inl s) opts = .error companyIdRequiredMsg)
  ∧ (∀ c : String, v.companyId = some c → c ≠ "" →
      Except.map (fun r => r.url) (v.proxyCore (Sum.inl s) opts) =
        .ok ((v.baseUrl ++ "/api/proxy/custom/" ++ c ++ "/" ++ toLowerCase s)
          ++ proxyPathSuffix (normalizeSlugOptions opts)
          ++ querySuffix (normalizeSlugOptions opts))) := by
  have hn : proxyNormalize (Sum.inl s) opts = .ok (some s, normalizeSlugOptions opts) := rfl
  constructor
  · intro h
    have hg := getCompanyId_error v h
    simp [Vegap.proxyCore, hn, Except.bind, proxyUrlBase, hmid, hs, hg]
  · intro c hc hcne
    have hg := getCompanyId_ok v c hc hcne
    simp [Vegap.proxyCore, hn, Except.bind, proxyUrlBase, hmid, hs, hg, Except.map]

/-- Witness for C2: the same slug call fails on a client without a company ID
and forms the expected URL on a client with company ID `co1`. -/
theorem proxy_slug_tenant_requirement_and_url_witness :
    (("MySlug" : String) ≠ ""
      ∧ truthy (jsGet (normalizeSlugOptions (some [("id", JsValue.jstr "cus_123")])) "mappingId") = false
      ∧ vNoCompany.hasCompanyId = false
      ∧ vNoCompany.proxyCore (Sum.inl "MySlug") (some [("id", JsValue.jstr "cus_123")]) =
          .error companyIdRequiredMsg)
  ∧ (vTest.companyId = some "co1"
      ∧ Except.map (fun r => r.url)
          (vTest.proxyCore (Sum.inl "MySlug") (some [("id", JsValue.jstr "cus_123")])) =
        .ok (("https://api.vegap.de" ++ "/api/proxy/custom/" ++ "co1" ++ "/" ++ toLowerCase "MySlug")
          ++ proxyPathSuffix (normalizeSlugOptions (some [("id", JsValue.jstr "cus_123")]))
          ++ querySuffix (normalizeSlugOptions (some [("id", JsValue.jstr "cus_123")])))) :=
  ⟨⟨by decide, rfl, rfl,
    (proxy_slug_tenant_requirement_and_url vNoCompany "MySlug"
        (some [("id", JsValue.jstr "cus_123")]) (by decide) rfl).1 rfl⟩,
   ⟨rfl,
    (proxy_slug_tenant_requirement_and_url vTest "MySlug"
        (some [("id", JsValue.jstr "cus_123")]) (by decide) rfl).2
      "co1" rfl (by decide)⟩⟩

/-- C3: A proxy call whose normalized options carry a (non-empty) mapping id
`m` builds the URL `{base}/api/proxy/{m}` before the optional path fragment
and query string are appended, and the tenant identifier is never consulted:
the result is identical for every value of the client's `companyId`,
including its absence. -/
theorem proxy_mapping_id_route_ignores_tenant (v : Vegap)
    (ident : Sum String JsObj) (opts : Option JsObj) (cs : Option String)
    (no : JsObj) (m : String)
    (hn : proxyNormalize ident opts = .ok (cs, no))
    (hm : jsGet no "mappingId" = JsValue.jstr m) (hmne : m ≠ "") :
    Except.map (fun r => r.url) (v.proxyCore ident opts) =
      .ok ((v.baseUrl ++ "/api/proxy/" ++ m) ++ proxyPathSuffix no ++ querySuffix no)
  ∧ ∀ cid : Option String,
      Vegap.proxyCore { apiKey := v.apiKey, baseUrl := v.baseUrl, companyId := cid } ident opts
        = v.proxyCore ident opts := by
  have ht : truthy (jsGet no "mappingId") = true := by
    rw [hm]; simp [truthy, hmne]
  have ht' : truthy (JsValue.jstr m) = true := by simp [truthy, hmne]
  constructor
  · simp [Vegap.proxyCore, hn, Except.bind, proxyUrlBase, ht, ht', hm, jsString, Except.map]
  · intro cid
    simp [Vegap.proxyCore, hn, Except.bind, proxyUrlBase, ht, ht', hm]

/-- Witness for C3: an id-based call on a client with no company ID succeeds
and forms `{base}/api/proxy/{id}`, and setting any company ID does not change
the outcome. -/
theorem proxy_mapping_id_route_ignores_tenant_witness :
    (proxyNormalize (Sum.inr [("mappingId", JsValue.jstr "mid123")]) none =
        .ok (none, [("mappingId", JsValue.jstr "mid123")])
      ∧ jsGet [("mappingId", JsValue.jstr "mid123")] "mappingId" = JsValue.jstr "mid123"
      ∧ ("mid123" : String) ≠ "")
  ∧ Except.map (fun r => r.url)
      (vNoCompany.proxyCore (Sum.inr [("mappingId", JsValue.jstr "mid123")]) none) =
      .ok (("https://api.vegap.de" ++ "/api/proxy/" ++ "mid123")
        ++ proxyPathSuffix [("mappingId", JsValue.jstr "mid123")]
        ++ querySuffix [("mappingId", JsValue.jstr "mid123")])
  ∧ vTest.proxyCore (Sum.inr [("mappingId", JsValue.jstr "mid123")]) none =
      vNoCompany.proxyCore (Sum.inr [("mappingId", JsValue.jstr "mid123")]) none :=
  ⟨⟨rfl, rfl, by decide⟩,
   (proxy_mapping_id_route_ignores_tenant vNoCompany
      (Sum.inr [("mappingId", JsValue.jstr "mid123")]) none none
      [("mappingId", JsValue.jstr "mid123")] "mid123" rfl rfl (by decide)).1,
   (proxy_mapping_id_route_ignores_tenant vNoCompany
      (Sum.inr [("mappingId", JsValue.jstr "mid123")]) none none
      [("mappingId", JsValue.jstr "mid123")] "mid123" rfl rfl (by decide)).2 (some "co1")⟩

/-- C5 counterexample: a non-2xx response whose body decodes as JSON
`{"error": m}` with `m = ""` does not yield the failure message `m`; the
code falls back to the synthesized status message because the empty string is
falsy. -/
theorem empty_error_field_counterexample :
    proxyHandleResponse
      { status := 404, statusText := "Not Found", contentType := none,
        bodyText := "", bodyJson := some (JsValue.jobj [("error", JsValue.jstr "")]) }
      = .error (JsError.errorObj "HTTP 404: Not Found")
  ∧ ("HTTP 404: Not Found" : String) ≠ "" :=
  ⟨rfl, by decide⟩

/-- C5 (amended): every non-2xx response makes each of the three calls fail
with the single outcome of the shared error-extraction block.  When the body
decodes to anything but `null`/`undefined` and carries a truthy `error`
field, the thrown message is exactly its `String(...)` rendering — in
particular exactly `m` for a non-empty string `m`.  When the body cannot be
decoded, the message is the synthesized `HTTP {status}: {statusText}`, which
carries the numeric status code.  When the body decodes to literal `null`,
the failure is the TypeError from reading the `error` property of `null`,
not the synthesized message. -/
theorem error_message_single_extraction :
    (∀ r : HttpResponse, responseOk r = false →
      proxyHandleResponse r = .error (errorOutcome r)
      ∧ transformHandleResponse r = .error (errorOutcome r)
      ∧ pipelineHandleResponse r = .error (errorOutcome r))
  ∧ (∀ (r : HttpResponse) (j : JsValue) (m : String),
      r.bodyJson = some j → j ≠ JsValue.jnull → j ≠ JsValue.jundefined →
      jsGet (asObj j) "error" = JsValue.jstr m → m ≠ "" →
      errorOutcome r = JsError.errorObj m)
  ∧ (∀ (r : HttpResponse) (j : JsValue),
      r.bodyJson = some j → j ≠ JsValue.jnull → j ≠ JsValue.jundefined →
      truthy (jsGet (asObj j) "error") = true →
      errorOutcome r = JsError.errorObj (jsString (jsGet (asObj j) "error")))
  ∧ (∀ r : HttpResponse, r.bodyJson = none →
      errorOutcome r = JsError.errorObj ("HTTP " ++ (toString r.status ++ (": " ++ r.statusText))))
  ∧ (∀ r : HttpResponse, r.bodyJson = some JsValue.jnull →
      errorOutcome r = JsError.typeError
      ∧ errorOutcome r ≠
          JsError.errorObj ("HTTP " ++ (toString r.status ++ (": " ++ r.statusText)))) := by
  have hgen : ∀ (r : HttpResponse) (j : JsValue),
      r.bodyJson = some j → j ≠ JsValue.jnull → j ≠ JsValue.jundefined →
      truthy (jsGet (asObj j) "error") = true →
      errorOutcome r = JsError.errorObj (jsString (jsGet (asObj j) "error")) := by
    intro r j hj hn1 hn2 ht
    cases j with
    | jnull => exact absurd rfl hn1
    | jundefined => exact absurd rfl hn2
    | jstr s => simp [errorOutcome, hj, ht]
    | jnum n => simp [errorOutcome, hj, ht]
    | jbool b => simp [errorOutcome, hj, ht]
    | jobj l => simp [errorOutcome, hj, ht]
    | jarr l => simp [errorOutcome, hj, ht]
  refine ⟨?_, ?_, hgen, ?_, ?_⟩
  · intro r h
    refine ⟨?_, ?_, ?_⟩ <;> simp [proxyHandleResponse, transformHandleResponse,
      pipelineHandleResponse, h]
  · intro r j m hj hn1 hn2 he hmne
    have ht : truthy (jsGet (asObj j) "error") = true := by
      rw [he]; simp [truthy, hmne]
    have h3 := hgen r j hj hn1 hn2 ht
    rw [he] at h3
    exact h3
  · intro r h
    simp [errorOutcome, h]
  · intro r h
    exact ⟨by simp [errorOutcome, h], by simp [errorOutcome, h]⟩

/-- Witness for C5 (amended): a 400 response with body `{"error":"bad slug"}`
fails with exactly `bad slug`; a 404 response with an undecodable body fails
with the synthesized `HTTP 404: Not Found`; a 404 response with a literal
`null` body fails with the TypeError, not a message. -/
theorem error_message_single_extraction_witness :
    (responseOk respBadSlug = false
      ∧ proxyHandleResponse respBadSlug = .error (errorOutcome respBadSlug))
  ∧ (respBadSlug.bodyJson = some (JsValue.jobj [("error", JsValue.jstr "bad slug")])
      ∧ errorOutcome respBadSlug = JsError.errorObj "bad slug")
  ∧ (respNoJson.bodyJson = none
      ∧ errorOutcome respNoJson =
          JsError.errorObj ("HTTP " ++ (toString respNoJson.status ++ (": " ++ respNoJson.statusText))))
  ∧ (respNullBody.bodyJson = some JsValue.jnull
      ∧ errorOutcome respNullBody = JsError.typeError) :=
  ⟨⟨rfl, (error_message_single_extraction.1 respBadSlug rfl).1⟩,
   ⟨rfl, error_message_single_extraction.2.1 respBadSlug
      (JsValue.jobj [("error", JsValue.jstr "bad slug")]) "bad slug" rfl
      (by intro h; cases h) (by intro h; cases h) rfl (by decide)⟩,
   ⟨rfl, error_message_single_extraction.2.2.2.1 respNoJson rfl⟩,
   ⟨rfl, (error_message_single_extraction.2.2.2.2 respNullBody rfl).1⟩⟩

/-- C6: A pipeline call carrying neither a file nor a (truthy) data payload
fails with a configuration error before any request is built — including the
object-form call already rejected during identifier normalization — and a
2xx response declaring a `text/csv` content type is returned as the raw body
text under the success result shape (success true, empty job id, status
completed). -/
theorem pipeline_payload_required_and_csv_passthrough :
    (∀ (v : Vegap) (ident : Sum String PipelineOptions) (opts : Option PipelineOptions)
       (cs : Option String) (no : PipelineOptions),
      pipelineNormalize ident opts = .ok (cs, no) →
      no.file = none → optFalsy no.data = true →
      v.pipelineCore ident opts = .error "Either file or data must be provided")
  ∧ (∀ (v : Vegap) (o : PipelineOptions) (opts : Option PipelineOptions) (e : String),
      pipelineNormalize (Sum.inr o) opts = .error e →
      v.pipelineCore (Sum.inr o) opts = .error e)
  ∧ (∀ (r : HttpResponse) (ct : String),
      responseOk r = true → r.contentType = some ct →
      containsSubstr ct "text/csv" = true →
      pipelineHandleResponse r = .ok (csvSuccessShape r.bodyText)) := by
  refine ⟨?_, ?_, ?_⟩
  · intro v ident opts cs no hn hf hd
    simp [Vegap.pipelineCore, hn, Except.bind, hf, hd]
  · intro v o opts e hn
    simp [Vegap.pipelineCore, hn, Except.bind]
  · intro r ct hok hct hcsv
    have hne : ct ≠ "" := by
      intro h
      subst h
      rw [show containsSubstr "" "text/csv" = false from by decide] at hcsv
      cases hcsv
    simp [pipelineHandleResponse, hok, declaresCsv, hct, hne, hcsv]

/-- Witness for C6: a slug pipeline call with no payload fails before any
request; an object-form call without a pipeline id fails before any request;
a 200 response with content type `text/csv; charset=utf-8` is passed through
as raw text under the success shape. -/
theorem pipeline_payload_required_and_csv_passthrough_witness :
    (vTest.pipelineCore (Sum.inl "invoice-processor") none =
        .error "Either file or data must be provided")
  ∧ (vTest.pipelineCore (Sum.inr emptyPipelineOptions) none =
        .error "If first parameter is an options object, it must contain pipelineId, or use custom slug as first parameter")
  ∧ pipelineHandleResponse respCsv = .ok (csvSuccessShape "a,b\n1,2") :=
  ⟨pipeline_payload_required_and_csv_passthrough.1 vTest (Sum.inl "invoice-processor")
      none (some "invoice-processor") emptyPipelineOptions rfl rfl rfl,
   pipeline_payload_required_and_csv_passthrough.2.1 vTest emptyPipelineOptions none _ rfl,
   pipeline_payload_required_and_csv_passthrough.2.2 respCsv "text/csv; charset=utf-8"
      rfl rfl (by decide)⟩

/-- C7: A transform call with a missing (or empty, hence falsy) `mappingId`
fails with `mappingId is required` before any request is built, and one with
a truthy `mappingId` but missing (or falsy) `rawResponse` fails with
`rawResponse is required` before any request is built. -/
theorem transform_missing_fields_fail_fast (v : Vegap) (o : TransformOptions) :
    (o.mappingId.getD "" = "" → v.transformCore o = .error "mappingId is required")
  ∧ (o.mappingId.getD "" ≠ "" → optFalsy o.rawResponse = true →
      v.transformCore o = .error "rawResponse is required") := by
  constructor
  · intro h
    simp [Vegap.transformCore, h]
  · intro h1 h2
    simp [Vegap.transformCore, h1, h2]

/-- Witness for C7: a call without `mappingId` and a call without
`rawResponse` both fail with the respective configuration error. -/
theorem transform_missing_fields_fail_fast_witness :
    vTest.transformCore { mappingId := none, rawResponse := some (JsValue.jobj []) } =
        .error "mappingId is required"
  ∧ vTest.transformCore { mappingId := some "mid123", rawResponse := none } =
        .error "rawResponse is required" :=
  ⟨(transform_missing_fields_fail_fast vTest
      { mappingId := none, rawResponse := some (JsValue.jobj []) }).1 rfl,
   (transform_missing_fields_fail_fast vTest
      { mappingId := some "mid123", rawResponse := none }).2 (by decide) rfl⟩

/-- C8: A truthy proxy `path` fragment `p` is appended to the route as one
`/` separator followed by `p` with any single leading slash stripped; in
particular a fragment already carrying one leading slash is appended without
a double slash, as in the concrete `/cus_123/subs` example. -/
theorem proxy_path_leading_slash_stripped (v : Vegap) (ident : Sum String JsObj)
    (opts : Option JsObj) (cs : Option String) (no : JsObj) (ub p : String)
    (hn : proxyNormalize ident opts = .ok (cs, no))
    (hu : proxyUrlBase v cs no = .ok ub)
    (hp : jsGet no "path" = JsValue.jstr p) (hpne : p ≠ "") :
    Except.map (fun r => r.url) (v.proxyCore ident opts) =
      .ok (ub ++ ("/" ++ stripLeadingSlash p) ++ querySuffix no)
  ∧ (∀ q : String, stripLeadingSlash ("/" ++ q) = q)
  ∧ stripLeadingSlash "/cus_123/subs" = "cus_123/subs" := by
  refine ⟨?_, fun q => rfl, by decide⟩
  have hps : proxyPathSuffix no = "/" ++ stripLeadingSlash p := by
    simp [proxyPathSuffix, hp, truthy, hpne, jsString]
  simp [Vegap.proxyCore, hn, Except.bind, hu, Except.map, hps]

/-- Witness for C8: the fragment `/cus_123/subs` is appended to the slug
route as `.../cus_123/subs` with a single separator. -/
theorem proxy_path_leading_slash_stripped_witness :
    (proxyNormalize (Sum.inl "stripe-customers") (some [("path", JsValue.jstr "/cus_123/subs")]) =
        .ok (some "stripe-customers", [("path", JsValue.jstr "/cus_123/subs")])
      ∧ jsGet [("path", JsValue.jstr "/cus_123/subs")] "path" = JsValue.jstr "/cus_123/subs"
      ∧ ("/cus_123/subs" : String) ≠ "")
  ∧ Except.map (fun r => r.url)
      (vTest.proxyCore (Sum.inl "stripe-customers") (some [("path", JsValue.jstr "/cus_123/subs")])) =
      .ok ("https://api.vegap.de/api/proxy/custom/co1/stripe-customers"
        ++ ("/" ++ stripLeadingSlash "/cus_123/subs")
        ++ querySuffix [("path", JsValue.jstr "/cus_123/subs")]) :=
  ⟨⟨rfl, rfl, by decide⟩,
   (proxy_path_leading_slash_stripped vTest (Sum.inl "stripe-customers")
      (some [("path", JsValue.jstr "/cus_123/subs")]) (some "stripe-customers")
      [("path", JsValue.jstr "/cus_123/subs")]
      "https://api.vegap.de/api/proxy/custom/co1/stripe-customers" "/cus_123/subs"
      rfl rfl rfl (by decide)).1⟩

/-- C10: A dispatched proxy request carries a body exactly when the supplied
body is truthy and the resolved method is POST, PUT or PATCH; in particular
GET and DELETE requests never carry a body, a string body is sent verbatim,
and a structured body is JSON-serialized. -/
theorem proxy_body_only_for_mutating_methods (v : Vegap) (ident : Sum String JsObj)
    (opts : Option JsObj) (cs : Option String) (no : JsObj) (r : OutboundRequest)
    (hn : proxyNormalize ident opts = .ok (cs, no))
    (hr : v.proxyCore ident opts = .ok r) :
    r.body.isSome = (truthy (jsGet no "body") && ["POST", "PUT", "PATCH"].contains r.method)
  ∧ (r.method = "GET" ∨ r.method = "DELETE" → r.body = none)
  ∧ (∀ s : String, jsGet no "body" = JsValue.jstr s → s ≠ "" →
      ["POST", "PUT", "PATCH"].contains r.method = true → r.body = some (BodyValue.text s))
  ∧ (∀ l : JsObj, jsGet no "body" = JsValue.jobj l →
      ["POST", "PUT", "PATCH"].contains r.method = true →
      r.body = some (BodyValue.text (jsonStringify (JsValue.jobj l)))) := by
  obtain ⟨ub, hu, hr2⟩ := proxyCore_shape v ident opts cs no r hn hr
  have hM : r.method = jsString (jsGetD no "method" (.jstr "GET")) := by rw [hr2]
  have hB : r.body = proxyBody no := by rw [hr2]
  have hiso : r.body.isSome =
      (truthy (jsGet no "body") && ["POST", "PUT", "PATCH"].contains r.method) := by
    rw [hB, hM]
    unfold proxyBody
    cases hc : truthy (jsGet no "body")
        && ["POST", "PUT", "PATCH"].contains (jsString (jsGetD no "method" (JsValue.jstr "GET"))) with
    | false => rfl
    | true => rfl
  refine ⟨hiso, ?_, ?_, ?_⟩
  · intro h
    have hf : (["POST", "PUT", "PATCH"].contains r.method) = false := by
      rcases h with h | h <;> rw [h] <;> decide
    rw [hf, Bool.and_false] at hiso
    cases hb : r.body with
    | none => rfl
    | some x => rw [hb] at hiso; cases hiso
  · intro s hbs hsne hcnt
    rw [hM] at hcnt
    have h1 : truthy (jsGet no "body") = true := by
      rw [hbs]; simp [truthy, hsne]
    rw [hB]
    unfold proxyBody
    rw [h1, hcnt, hbs]
    rfl
  · intro l hbl hcnt
    rw [hM] at hcnt
    have h1 : truthy (jsGet no "body") = true := by rw [hbl]; rfl
    rw [hB]
    unfold proxyBody
    rw [h1, hcnt, hbl]
    rfl

/-- Witness for C10: a POST call with a structured body carries the
JSON-serialized body; the same shape shows the string and emptiness laws are
applied at a concrete request. -/
theorem proxy_body_only_for_mutating_methods_witness :
    vTest.proxyCore (Sum.inl "s")
      (some [("method", JsValue.jstr "POST"), ("body", JsValue.jobj [("name", JsValue.jstr "John")])]) =
      .ok { method := "POST",
            url := "https://api.vegap.de/api/proxy/custom/co1/s",
            headers := [("X-API-Key", "test-key"), ("Content-Type", "application/json")],
            body := some (BodyValue.text "\x7b\"name\":\"John\"\x7d") }
  ∧ OutboundRequest.body
      { method := "POST",
        url := "https://api.vegap.de/api/proxy/custom/co1/s",
        headers := [("X-API-Key", "test-key"), ("Content-Type", "application/json")],
        body := some (BodyValue.text "\x7b\"name\":\"John\"\x7d") } =
      some (BodyValue.text (jsonStringify (JsValue.jobj [("name", JsValue.jstr "John")]))) :=
  ⟨rfl,
   (proxy_body_only_for_mutating_methods vTest (Sum.inl "s")
      (some [("method", JsValue.jstr "POST"), ("body", JsValue.jobj [("name", JsValue.jstr "John")])])
      (some "s")
      [("method", JsValue.jstr "POST"), ("body", JsValue.jobj [("name", JsValue.jstr "John")])]
      { method := "POST",
        url := "https://api.vegap.de/api/proxy/custom/co1/s",
        headers := [("X-API-Key", "test-key"), ("Content-Type", "application/json")],
        body := some (BodyValue.text "\x7b\"name\":\"John\"\x7d") }
      rfl rfl).2.2.2 [("name", JsValue.jstr "John")] rfl (by decide)⟩

/-- C4 counterexample: on the pipeline JSON-data path the caller-supplied
`Content-Type` header does not override the default — the code forces
`application/json` after spreading the caller's headers. -/
theorem pipeline_header_override_counterexample :
    Except.map (fun r => hGet r.headers "Content-Type")
      ((vTest.pipeline (Sum.inl "proc")
        (some { file := none, data := some (JsValue.jstr "x"),
                headers := [("Content-Type", "text/plain")], pipelineId := none })).snd)
      = .ok (some "application/json")
  ∧ (some "application/json" : Option String) ≠ some "text/plain" :=
  ⟨rfl, by decide⟩

/-- C4 (amended): a dispatched proxy request carries `X-API-Key` and
`Content-Type: application/json` by default and a caller-supplied header of
the same name overrides either; a dispatched pipeline request carries only
`X-API-Key` by default (caller-overridable): on the file path the final
`Content-Type` is exactly the caller's (absent by default), while on the
JSON-data path `Content-Type: application/json` is applied after the
caller's headers and overrides any caller value. -/
theorem default_headers_and_overrides :
    (∀ (v : Vegap) (ident : Sum String JsObj) (opts : Option JsObj)
       (cs : Option String) (no : JsObj) (r : OutboundRequest),
      proxyNormalize ident opts = .ok (cs, no) →
      ((headerList (jsGetD no "headers" (.jobj []))).map Prod.fst).Nodup →
      v.proxyCore ident opts = .ok r →
      hGet r.headers "X-API-Key" =
        some ((hGet (headerList (jsGetD no "headers" (.jobj []))) "X-API-Key").getD v.apiKey)
      ∧ hGet r.headers "Content-Type" =
        some ((hGet (headerList (jsGetD no "headers" (.jobj []))) "Content-Type").getD "application/json"))
  ∧ (∀ (v : Vegap) (ident : Sum String PipelineOptions) (opts : Option PipelineOptions)
       (cs : Option String) (no : PipelineOptions) (r : OutboundRequest) (f : FileValue),
      pipelineNormalize ident opts = .ok (cs, no) →
      (no.headers.map Prod.fst).Nodup →
      no.file = some f →
      v.pipelineCore ident opts = .ok r →
      hGet r.headers "X-API-Key" = some ((hGet no.headers "X-API-Key").getD v.apiKey)
      ∧ hGet r.headers "Content-Type" = hGet no.headers "Content-Type")
  ∧ (∀ (v : Vegap) (ident : Sum String PipelineOptions) (opts : Option PipelineOptions)
       (cs : Option String) (no : PipelineOptions) (r : OutboundRequest),
      pipelineNormalize ident opts = .ok (cs, no) →
      (no.headers.map Prod.fst).Nodup →
      no.file = none →
      v.pipelineCore ident opts = .ok r →
      hGet r.headers "Content-Type" = some "application/json"
      ∧ hGet r.headers "X-API-Key" = some ((hGet no.headers "X-API-Key").getD v.apiKey)) := by
  refine ⟨?_, ?_, ?_⟩
  · intro v ident opts cs no r hn hnd hr
    obtain ⟨ub, hu, hr2⟩ := proxyCore_shape v ident opts cs no r hn hr
    have hh : r.headers = objSpread [("X-API-Key", v.apiKey), ("Content-Type", "application/json")]
        (headerList (jsGetD no "headers" (.jobj []))) := by rw [hr2]
    constructor
    · rw [hh, hGet_objSpread _ _ _ hnd]
      cases h : hGet (headerList (jsGetD no "headers" (.jobj []))) "X-API-Key" <;>
        simp [h, hGet]
    · rw [hh, hGet_objSpread _ _ _ hnd]
      cases h : hGet (headerList (jsGetD no "headers" (.jobj []))) "Content-Type" <;>
        simp [h, hGet]
  · intro v ident opts cs no r f hn hnd hf hr
    obtain ⟨ub, hu, hr2⟩ := pipelineCore_file_shape v ident opts cs no r f hn hf hr
    have hh : r.headers = objSpread [("X-API-Key", v.apiKey)] no.headers := by rw [hr2]
    constructor
    · rw [hh, hGet_objSpread _ _ _ hnd]
      cases h : hGet no.headers "X-API-Key" <;> simp [h, hGet]
    · rw [hh, hGet_objSpread _ _ _ hnd]
      cases h : hGet no.headers "Content-Type" <;> simp [h, hGet]
  · intro v ident opts cs no r hn hnd hf hr
    obtain ⟨ub, hu, hr2⟩ := pipelineCore_data_shape v ident opts cs no r hn hf hr
    have hh : r.headers = objSet (objSpread [("X-API-Key", v.apiKey)] no.headers)
        "Content-Type" "application/json" := by rw [hr2]
    constructor
    · rw [hh]
      exact hGet_objSet_self _ _ _
    · rw [hh, hGet_objSet_other _ _ _ _ (by decide), hGet_objSpread _ _ _ hnd]
      cases h : hGet no.headers "X-API-Key" <;> simp [h, hGet]

/-- Witness for C4 (amended): concrete requests on all three paths — a proxy
call whose caller header overrides the credential default, a pipeline file
upload with no content type, and a pipeline JSON-data call whose content
type is forced to `application/json`. -/
theorem default_headers_and_overrides_witness :
    (hGet [("X-API-Key", "override"), ("Content-Type", "application/json")] "X-API-Key" =
        some "override"
      ∧ hGet [("X-API-Key", "override"), ("Content-Type", "application/json")] "Content-Type" =
        some "application/json")
  ∧ (hGet [("X-API-Key", "test-key")] "X-API-Key" = some "test-key"
      ∧ hGet ([("X-API-Key", "test-key")] : List (String × String)) "Content-Type" = none)
  ∧ (hGet [("X-API-Key", "test-key"), ("Content-Type", "application/json")] "Content-Type" =
        some "application/json"
      ∧ hGet [("X-API-Key", "test-key"), ("Content-Type", "application/json")] "X-API-Key" =
        some "test-key") :=
  ⟨default_headers_and_overrides.1 vTest (Sum.inl "s")
      (some [("headers", JsValue.jobj [("X-API-Key", JsValue.jstr "override")])])
      (some "s") [("headers", JsValue.jobj [("X-API-Key", JsValue.jstr "override")])]
      { method := "GET",
        url := "https://api.vegap.de/api/proxy/custom/co1/s",
        headers := [("X-API-Key", "override"), ("Content-Type", "application/json")],
        body := none }
      rfl (by decide) rfl,
   default_headers_and_overrides.2.1 vTest (Sum.inl "proc")
      (some { file := some (FileValue.fileBlob "f"), data := none, headers := [], pipelineId := none })
      (some "proc")
      { file := some (FileValue.fileBlob "f"), data := none, headers := [], pipelineId := none }
      { method := "POST",
        url := "https://api.vegap.de/api/pipelines/custom/co1/proc",
        headers := [("X-API-Key", "test-key")],
        body := some (BodyValue.form [("file", FileValue.fileBlob "f")]) }
      (FileValue.fileBlob "f") rfl (by decide) rfl rfl,
   default_headers_and_overrides.2.2 vTest (Sum.inl "proc")
      (some { file := none, data := some (JsValue.jstr "x"),
              headers := [("Content-Type", "text/plain")], pipelineId := none })
      (some "proc")
      { file := none, data := some (JsValue.jstr "x"),
        headers := [("Content-Type", "text/plain")], pipelineId := none }
      { method := "POST",
        url := "https://api.vegap.de/api/pipelines/custom/co1/proc",
        headers := [("X-API-Key", "test-key"), ("Content-Type", "application/json")],
        body := some (BodyValue.text "\x7b\"data\":\"x\"\x7d") }
      rfl (by decide) rfl rfl⟩

end VegapSDK
